import Mathlib

/-!
Verification of the Tobin Bridge vessel risk-assessment engine
(`src/vessel_analysis.py`).

All numeric quantities are modelled over `ℚ`.  The two geodesy primitives of
the source — `calculate_distance` (haversine great-circle distance) and
`predict_position` (spherical forward projection) — are transcendental
functions of `math.sin`/`cos`/`asin`/`atan2`; they are abstracted here as the
fields of a `Geodesy` interface, because every property under verification
concerns the engine logic downstream of these primitives, never their
transcendental values.  Every other function of the source is translated
line-by-line over that interface.  Display-only formatted strings
(f-string interpolations of numbers) are omitted; all plain string literals
(risk levels, reasons, categories, confidence labels) are kept verbatim.
-/

/-- Absolute value on `ℚ` written as the plain conditional, so that concrete
evaluations reduce by `decide`. -/
def qabs (x : ℚ) : ℚ := if x < 0 then -x else x

/-- `listPrefOf need hay` is true when `need` occurs at the head of `hay`
(Python `str.startswith` on character lists). -/
def listPrefOf : List Char → List Char → Bool
  | [], _ => true
  | _ :: _, [] => false
  | a :: as, b :: bs => a = b && listPrefOf as bs

/-- `hasSub need hay` is true when `need` occurs contiguously anywhere in
`hay` (Python's `in` operator on strings). -/
def hasSub (need : List Char) : List Char → Bool
  | [] => listPrefOf need []
  | c :: rest => listPrefOf need (c :: rest) || hasSub need rest

/-- `str(x).upper()` of the source, as a character list. -/
def upChars (s : String) : List Char := s.toList.map Char.toUpper

/-- `need in str(ship_type).upper()` of the source: case-normalised
substring containment. -/
def strContains (hay : String) (need : String) : Bool :=
  hasSub need.toList (upChars hay)

/-- Tobin Bridge main-span centre latitude (source constant `BRIDGE_LAT`). -/
def BRIDGE_LAT : ℚ := 42.385024832115086

/-- Tobin Bridge main-span centre longitude (source constant `BRIDGE_LON`). -/
def BRIDGE_LON : ℚ := -71.04757879955105

/-- One bridge pier: static reference data (source dict entries of
`TOBIN_BRIDGE_PIERS`). -/
structure Pier where
  name : String
  lat : ℚ
  lon : ℚ
  lateral_capacity_kips : ℚ
  water_depth_ft : ℚ
deriving DecidableEq

/-- The site is a nonempty association list of pier ids to piers; nonemptiness
is encoded by the distinguished first entry, which also realises the
`float('inf')` sentinel of the source's minimum scan (the first pier always
beats the sentinel). -/
structure BridgeSite where
  first : String × Pier
  rest : List (String × Pier)

/-- Pier 1 of the source's `TOBIN_BRIDGE_PIERS`. -/
def pier_1 : Pier :=
  { name := "Pier 1", lat := 42.38406915832355, lon := -71.04840495874075
    lateral_capacity_kips := 5000, water_depth_ft := 35 }

/-- Pier 2 of the source's `TOBIN_BRIDGE_PIERS`. -/
def pier_2 : Pier :=
  { name := "Pier 2", lat := 42.38588485861366, lon := -71.04676244000547
    lateral_capacity_kips := 5000, water_depth_ft := 35 }

/-- Pier 3 of the source's `TOBIN_BRIDGE_PIERS`. -/
def pier_3 : Pier :=
  { name := "Pier 3", lat := 42.386689729342, lon := -71.04601512671925
    lateral_capacity_kips := 5000, water_depth_ft := 35 }

/-- The built-in Tobin Bridge site (`TOBIN_BRIDGE_PIERS`), in source order. -/
def TOBIN_BRIDGE_PIERS : BridgeSite :=
  { first := ("pier_1", pier_1)
    rest := [("pier_2", pier_2), ("pier_3", pier_3)] }

/-- `estimate_dwt_from_ais(ship_type, length, width)`: heuristic DWT ladder.
The `width` parameter is kept exactly as in the source, where it is never
read.  The Python guard `length is None or length == 0` collapses to
`length == 0` here because `length` is always the sum `A + B` of the report's
dimension fields (zero when the dimension block is absent). -/
def estimate_dwt_from_ais (ship_type : String) (length width : ℚ) : ℚ :=
  if length = 0 then
    if strContains ship_type "CARGO" || strContains ship_type "CONTAINER" then 15000
    else if strContains ship_type "TANKER" then 20000
    else if strContains ship_type "PASSENGER" || strContains ship_type "FERRY" then 1000
    else 5000
  else if length > 250 then 50000
  else if length > 150 then 20000
  else if length > 100 then 10000
  else if length > 50 then 3000
  else 1000

/-- `estimate_vessel_draft(dwt_tons, ship_type)`: bucketed draft ladder.  The
`ship_type` parameter is kept exactly as in the source, where it is unused. -/
def estimate_vessel_draft (dwt_tons : ℚ) (ship_type : String) : ℚ :=
  if dwt_tons > 50000 then 45
  else if dwt_tons > 20000 then 35
  else if dwt_tons > 10000 then 28
  else if dwt_tons > 5000 then 22
  else if dwt_tons > 1000 then 15
  else 10

/-- `check_grounding_risk(vessel_draft_ft, water_depth_ft)`: returns
`(will_ground, clearance)` with `clearance = depth - draft` and
`will_ground` iff `clearance < -10`. -/
def check_grounding_risk (vessel_draft_ft water_depth_ft : ℚ) : Bool × ℚ :=
  let clearance := water_depth_ft - vessel_draft_ft
  (decide (clearance < -10), clearance)

/-- `calculate_impact_force_aashto(dwt_long_tons, speed_knots)`:
`P = (V^2 * DWT * C) / (2 g)` with `V = speed * 1.688` ft/s, `C = 1.2`,
`g = 32.2` ft/s^2. -/
def calculate_impact_force_aashto (dwt_long_tons speed_knots : ℚ) : ℚ :=
  let speed_fps := speed_knots * 1.688
  (speed_fps ^ 2 * dwt_long_tons * 1.2) / (2 * 32.2)

/-- `calculate_dc_ratio(impact_force_kips, pier_capacity_kips)`: demand over
capacity, `0` when the capacity is `0`. -/
def calculate_dc_ratio (impact_force_kips pier_capacity_kips : ℚ) : ℚ :=
  if pier_capacity_kips = 0 then 0
  else impact_force_kips / pier_capacity_kips

/-- `assess_threat_level(dc_ratio)`: coarse status label, emoji, and
description. -/
def assess_threat_level (dc_ratio : ℚ) : String × String × String :=
  if dc_ratio ≥ 1.0 then ("CRITICAL", "🔴", "Impact exceeds lateral pier capacity")
  else if dc_ratio ≥ 0.75 then ("WARNING", "🟠", "Impact approaching lateral capacity")
  else if dc_ratio ≥ 0.50 then ("WATCH", "🟡", "Significant lateral impact force")
  else ("NORMAL", "🟢", "Impact within safe limits")

/-- Interface for the two spherical-geometry primitives of the source.
`calculate_distance lat1 lon1 lat2 lon2` is the haversine great-circle
distance in nautical miles; `predict_position lat lon speed course minutes`
is the spherical forward projection.  The source realises them with
transcendental float trigonometry; the engine logic below is parametric in
this interface. -/
structure Geodesy where
  calculate_distance : ℚ → ℚ → ℚ → ℚ → ℚ
  predict_position : ℚ → ℚ → ℚ → ℚ → ℚ → ℚ × ℚ

/-- `find_closest_pier(lat, lon)`: linear scan over the site's piers keeping
the strictly smaller distance (first pier wins ties); returns the chosen
`(id, pier)` entry together with its distance.  The source's `float('inf')`
initial minimum is realised by starting the fold at the first pier. -/
def find_closest_pier (G : Geodesy) (site : BridgeSite) (lat lon : ℚ) :
    (String × Pier) × ℚ :=
  let d0 := G.calculate_distance lat lon site.first.2.lat site.first.2.lon
  site.rest.foldl
    (fun acc p =>
      let d := G.calculate_distance lat lon p.2.lat p.2.lon
      if d < acc.2 then (p, d) else acc)
    ((site.first.1, site.first.2), d0)

/-- `TOBIN_BRIDGE_PIERS[pier_id]`: association-list lookup of a pier by id.
Total here (falling back to the first pier); the engine only ever looks up
ids produced by `find_closest_pier`, for which the lookup succeeds. -/
def pierLookup (site : BridgeSite) (pid : String) : Pier :=
  match (site.first :: site.rest).find? (fun p => p.1 = pid) with
  | some p => p.2
  | none => site.first.2

/-- One AIS report as consumed by the engine: the fields read from the
`ship_data` dict (`Latitude`, `Longitude`, `Sog`, `Cog`, `ShipType`, and the
four `Dimension` components whose sums give length and width). -/
structure ShipData where
  Latitude : ℚ
  Longitude : ℚ
  Sog : ℚ
  Cog : ℚ
  ShipType : String
  dimA : ℚ
  dimB : ℚ
  dimC : ℚ
  dimD : ℚ

/-- The record returned by `analyze_vessel` (formatted description string
omitted). -/
structure VesselAnalysis where
  closest_pier_id : String
  pier_name : String
  distance_to_pier_nm : ℚ
  distance_from_bridge_nm : ℚ
  dwt_tons : ℚ
  vessel_draft_ft : ℚ
  water_depth_ft : ℚ
  ukc_ft : ℚ
  will_ground : Bool
  impact_force_kips : ℚ
  pier_lateral_capacity_kips : ℚ
  dc_ratio : ℚ
  status : String
  emoji : String

/-- `analyze_vessel(ship_data)`: the complete structural analysis of one
report.  The site is the explicit first argument (the source reads the
module-level `TOBIN_BRIDGE_PIERS`; spec §6 makes the site the static
configuration surface supplied at startup). -/
def analyze_vessel (G : Geodesy) (site : BridgeSite) (s : ShipData) :
    VesselAnalysis :=
  let length := s.dimA + s.dimB
  let width := s.dimC + s.dimD
  let cp := find_closest_pier G site s.Latitude s.Longitude
  let pier := cp.1.2
  let distance_from_bridge :=
    G.calculate_distance s.Latitude s.Longitude BRIDGE_LAT BRIDGE_LON
  let dwt := estimate_dwt_from_ais s.ShipType length width
  let draft := estimate_vessel_draft dwt s.ShipType
  let gr := check_grounding_risk draft pier.water_depth_ft
  let idc :=
    if gr.1 then ((0 : ℚ), (0 : ℚ), "GROUNDED", "⚓")
    else
      let impact_force := calculate_impact_force_aashto dwt s.Sog
      let dc_ratio := calculate_dc_ratio impact_force pier.lateral_capacity_kips
      let st := assess_threat_level dc_ratio
      (impact_force, dc_ratio, st.1, st.2.1)
  { closest_pier_id := cp.1.1
    pier_name := pier.name
    distance_to_pier_nm := cp.2
    distance_from_bridge_nm := distance_from_bridge
    dwt_tons := dwt
    vessel_draft_ft := draft
    water_depth_ft := pier.water_depth_ft
    ukc_ft := gr.2
    will_ground := gr.1
    impact_force_kips := idc.1
    pier_lateral_capacity_kips := pier.lateral_capacity_kips
    dc_ratio := idc.2.1
    status := idc.2.2.1
    emoji := idc.2.2.2 }

/-- The sampling loop of `calculate_closest_point_of_approach`: starting at
minute `t` with the running minimum `(minD, minT)` and `fuel` iterations left
(the source iterates `t = 1 .. 60`), sample `d t`, update the running minimum
on a strict decrease, and break once `t > minT + 5` with `d t > minD`. -/
def cpaScan (d : ℕ → ℚ) : ℕ → ℕ → ℚ → ℕ → ℚ × ℕ
  | 0, _, minD, minT => (minD, minT)
  | fuel + 1, t, minD, minT =>
    let fd := d t
    let p := if fd < minD then (fd, t) else (minD, minT)
    if t > p.2 + 5 ∧ fd > p.1 then p
    else cpaScan d fuel (t + 1) p.1 p.2

/-- The projected-distance profile sampled by the CPA loop: distance from the
position projected `t` minutes ahead to the target. -/
def cpaProfile (G : Geodesy) (ship_lat ship_lon speed course target_lat target_lon : ℚ)
    (t : ℕ) : ℚ :=
  let fut := G.predict_position ship_lat ship_lon speed course (t : ℚ)
  G.calculate_distance fut.1 fut.2 target_lat target_lon

/-- `calculate_closest_point_of_approach(...)`: returns
`(cpa_distance_nm, cpa_time_minutes, will_approach)`.  Below 0.5 kn the
vessel is treated as stationary; otherwise the 60-minute 1-minute-step scan
of `cpaScan` runs, and `will_approach` holds iff the discovered minimum is
strictly below the current distance at a strictly positive time. -/
def calculate_closest_point_of_approach (G : Geodesy)
    (ship_lat ship_lon speed_knots course_degrees target_lat target_lon : ℚ) :
    ℚ × ℕ × Bool :=
  if speed_knots < 0.5 then
    (G.calculate_distance ship_lat ship_lon target_lat target_lon, 0, false)
  else
    let current_distance := G.calculate_distance ship_lat ship_lon target_lat target_lon
    let d := cpaProfile G ship_lat ship_lon speed_knots course_degrees target_lat target_lon
    let r := cpaScan d 60 1 current_distance 0
    (r.1, r.2, decide (r.1 < current_distance ∧ r.2 > 0))

/-- The classifier's 5-minute look-ahead approach test (the `approaching`
variable of `assess_collision_risk`): project 5 minutes ahead and compare the
distance to the pier with the current distance; `false` whenever
`speed ≤ 0.5`. -/
def approachingFlag (G : Geodesy) (lat lon speed course : ℚ) (pier : Pier)
    (distance_to_pier : ℚ) : Bool :=
  if speed > 0.5 then
    let fut := G.predict_position lat lon speed course 5
    decide (G.calculate_distance fut.1 fut.2 pier.lat pier.lon < distance_to_pier)
  else false

/-- The record returned by `assess_collision_risk`. -/
structure CollisionRisk where
  risk_level : String
  risk_description : String
  cpa_distance_nm : ℚ
  cpa_time_minutes : ℕ
  will_approach : Bool
  time_to_impact : Option ℕ
  approaching : Bool

/-- `assess_collision_risk(ship_data, analysis)`: the ordered decision table,
evaluated top-to-bottom with first match winning, fed by the CPA solver and
the 5-minute look-ahead. -/
def assess_collision_risk (G : Geodesy) (site : BridgeSite) (s : ShipData)
    (analysis : VesselAnalysis) : CollisionRisk :=
  let pier := pierLookup site analysis.closest_pier_id
  let distance_to_pier := analysis.distance_to_pier_nm
  let c := calculate_closest_point_of_approach G s.Latitude s.Longitude s.Sog s.Cog
    pier.lat pier.lon
  let dc_ratio := analysis.dc_ratio
  let will_ground := analysis.will_ground
  let approaching := approachingFlag G s.Latitude s.Longitude s.Sog s.Cog pier
    distance_to_pier
  let rl :=
    if will_ground then
      ("NEGLIGIBLE THREAT", "Vessel will ground before pier")
    else if approaching = false ∧ distance_to_pier > 1.0 then
      ("NEGLIGIBLE THREAT", "Vessel headed away - Routine tracking")
    else if dc_ratio < 0.5 then
      ("NEGLIGIBLE THREAT", "Vessel too small - Routine tracking")
    else if distance_to_pier > 10 then
      ("NEGLIGIBLE THREAT", "Vessel far from bridge - Routine tracking")
    else if s.Sog < 0.5 then
      ("NEGLIGIBLE THREAT", "Vessel stationary - Routine tracking")
    else if dc_ratio ≥ 1.0 ∧ s.Sog > 15 ∧ approaching = true ∧ distance_to_pier < 2 then
      ("ALARM", "Excessive speed approaching bridge - Close bridge immediately")
    else if dc_ratio ≥ 0.75 ∧ approaching = true ∧ distance_to_pier < 5 then
      ("ELEVATED MONITORING", "Large vessel approaching - Routine transit expected")
    else if dc_ratio ≥ 0.5 ∧ distance_to_pier < 10 then
      ("MONITOR", "Large vessel in the area - Routine tracking")
    else
      ("NEGLIGIBLE THREAT", "Vessel too small, deep drafted, far, or headed away - Routine tracking")
  { risk_level := rl.1
    risk_description := rl.2
    cpa_distance_nm := c.1
    cpa_time_minutes := c.2.1
    will_approach := c.2.2
    time_to_impact := if approaching then some c.2.1 else none
    approaching := approaching }

/-- Factor 1 of `calculate_allision_probability`: trajectory alignment. -/
def trajectory_factor (will_approach : Bool) (cpa_distance : ℚ) : ℚ :=
  if will_approach = false then 0.0
  else if cpa_distance > 0.5 then 0.0
  else if cpa_distance > 0.3 then 0.2
  else if cpa_distance > 0.1 then 0.5
  else 0.9

/-- Factor 2 of `calculate_allision_probability`: grounding prevents
allision. -/
def grounding_prevents_factor (will_ground : Bool) (ukc : ℚ) : ℚ :=
  if will_ground then 0.95
  else if ukc < -5 then 0.7
  else if ukc < 0 then 0.4
  else if ukc < 5 then 0.1
  else 0.0

/-- Factor 3 of `calculate_allision_probability`: maneuvering ability. -/
def maneuver_factor (speed distance_to_pier : ℚ) : ℚ :=
  if speed < 0.5 then 0.0
  else if speed < 5 ∧ distance_to_pier > 1.0 then 0.1
  else if speed < 10 ∧ distance_to_pier > 0.5 then 0.3
  else if distance_to_pier > 0.3 then 0.5
  else 0.8

/-- Factor 4 of `calculate_allision_probability`: impact severity from the
D/C ratio. -/
def severity_factor (dc_ratio : ℚ) : ℚ :=
  if dc_ratio < 0.5 then 0.3
  else if dc_ratio < 0.75 then 0.5
  else if dc_ratio < 1.0 then 0.7
  else 1.0

/-- The record returned by `calculate_allision_probability` (per-factor
formatted explanation strings omitted). -/
structure AllisionProbability where
  probability : ℚ
  probability_percent : ℚ
  probability_category : String
  category_emoji : String
  confidence : String
  confidence_description : String
  base_probability : ℚ
  severity_fac : ℚ

/-- `calculate_allision_probability(ship_data, analysis, collision_risk)`:
`base = trajectory * (1 - grounding_prevents) * maneuver`, weighted by the
severity factor, with the confidence label and the category thresholds of the
source. -/
def calculate_allision_probability (s : ShipData) (analysis : VesselAnalysis)
    (collision_risk : CollisionRisk) : AllisionProbability :=
  let speed := s.Sog
  let tf := trajectory_factor collision_risk.will_approach collision_risk.cpa_distance_nm
  let gp := grounding_prevents_factor analysis.will_ground analysis.ukc_ft
  let mf := maneuver_factor speed analysis.distance_to_pier_nm
  let sf := severity_factor analysis.dc_ratio
  let base_probability := tf * (1 - gp) * mf
  let risk_weighted_probability := base_probability * sf
  let conf :=
    if tf = 0 ∨ gp > 0.9 then ("HIGH", "High confidence in assessment")
    else if analysis.ukc_ft < 5 ∨ analysis.distance_to_pier_nm < 0.5 then
      ("MODERATE", "Moderate confidence - uncertainties present")
    else ("LOW", "Low confidence - multiple uncertainties")
  let cat :=
    if risk_weighted_probability < 0.05 then ("NEGLIGIBLE", "🟢")
    else if risk_weighted_probability < 0.15 then ("LOW", "🟡")
    else if risk_weighted_probability < 0.35 then ("MODERATE", "🟠")
    else ("HIGH", "🔴")
  { probability := risk_weighted_probability
    probability_percent := risk_weighted_probability * 100
    probability_category := cat.1
    category_emoji := cat.2
    confidence := conf.1
    confidence_description := conf.2
    base_probability := base_probability
    severity_fac := sf }

/-- A concrete rational instantiation of the geodesy interface used for
evaluating the engine on explicit inputs: Manhattan-style distance on
(lat, lon) and a projection that advances the longitude westward by
`speed * minutes / 60` nautical miles. -/
def linGeo : Geodesy where
  calculate_distance := fun lat1 lon1 lat2 lon2 => qabs (lat1 - lat2) + qabs (lon1 - lon2)
  predict_position := fun lat lon sp _ t => (lat, lon - sp * t / 60)

/-- A non-monotonic distance landscape: along the track parametrised by the
first coordinate, the distance dips to 3 at time 2, rises to 4, and later
drops to 0 at time 20. -/
def gfun (x : ℚ) : ℚ :=
  if x = 0 then 5 else if x = 1 then 4 else if x = 2 then 3 else if x = 20 then 0 else 4

/-- A geodesy instance realising the `gfun` distance landscape: the projection
stores the elapsed time in the first coordinate. -/
def gGeo : Geodesy where
  calculate_distance := fun lat1 _ _ _ => gfun lat1
  predict_position := fun _ _ _ _ t => (t, 0)

/-- A one-pier site with 20 ft of water, shallow enough to ground a deep
vessel. -/
def shallowSite : BridgeSite :=
  { first := ("p", { name := "P", lat := 0, lon := 0
                     lateral_capacity_kips := 5000, water_depth_ft := 20 })
    rest := [] }

/-- A 260 m vessel report: DWT 50000, draft 35 ft. -/
def bigShip : ShipData :=
  { Latitude := 0, Longitude := 0, Sog := 10, Cog := 0, ShipType := "Unknown"
    dimA := 260, dimB := 0, dimC := 0, dimD := 0 }

/-- A report 1.5 nm east of Pier 3 at 20 kn; under `linGeo` the projection
moves the vessel further east, directly away from the pier. -/
def awayShip : ShipData :=
  { Latitude := pier_3.lat, Longitude := pier_3.lon - 1.5, Sog := 20, Cog := 180
    ShipType := "Unknown", dimA := 200, dimB := 0, dimC := 0, dimD := 0 }

/-- An analysis record with distance-to-pier 1.5 nm and D/C 1.2, the literal
figures of the spec's rule-ordering test case. -/
def awayAnalysis : VesselAnalysis :=
  { closest_pier_id := "pier_3", pier_name := "Pier 3", distance_to_pier_nm := 1.5
    distance_from_bridge_nm := 1.5, dwt_tons := 50000, vessel_draft_ft := 35
    water_depth_ft := 35, ukc_ft := 0, will_ground := false, impact_force_kips := 6000
    pier_lateral_capacity_kips := 5000, dc_ratio := 1.2, status := "CRITICAL"
    emoji := "🔴" }

/-- A stationary (speed-0) report 5 nm east of Pier 3; length 200 m. -/
def zeroShip : ShipData :=
  { Latitude := pier_3.lat, Longitude := pier_3.lon + 5, Sog := 0, Cog := 0
    ShipType := "Unknown", dimA := 200, dimB := 0, dimC := 0, dimD := 0 }

/-- A 200 m vessel drifting at 0.2 kn, 5 nm east of Pier 3. -/
def slowShip : ShipData :=
  { Latitude := pier_3.lat, Longitude := pier_3.lon + 5, Sog := 0.2, Cog := 0
    ShipType := "Unknown", dimA := 200, dimB := 0, dimC := 0, dimD := 0 }

/-- A 200 m vessel at exactly 0.5 kn, 1 nm east of Pier 3; under `linGeo` it
closes on the pier along the 60-minute scan. -/
def halfShip : ShipData :=
  { Latitude := pier_3.lat, Longitude := pier_3.lon + 1, Sog := 0.5, Cog := 0
    ShipType := "Unknown", dimA := 200, dimB := 0, dimC := 0, dimD := 0 }

/-- A 200 m vessel at 18 kn, 1 nm east of Pier 3, closing head-on under
`linGeo`. -/
def c5Ship : ShipData :=
  { Latitude := pier_3.lat, Longitude := pier_3.lon + 1, Sog := 18, Cog := 270
    ShipType := "Unknown", dimA := 200, dimB := 0, dimC := 0, dimD := 0 }

/-- The values the CPA loop compares against: the current distance at index 0
(the initial running minimum of the source) and the projected distance at
minute `u ≥ 1`. -/
def sampledDist (G : Geodesy) (slat slon sp course tlat tlon : ℚ) (u : ℕ) : ℚ :=
  if u = 0 then G.calculate_distance slat slon tlat tlon
  else cpaProfile G slat slon sp course tlat tlon u

/-- The DWT estimator only ever outputs one of seven ladder values. -/
theorem estimate_dwt_cases (st : String) (l w : ℚ) :
    estimate_dwt_from_ais st l w = 1000 ∨ estimate_dwt_from_ais st l w = 3000 ∨
    estimate_dwt_from_ais st l w = 5000 ∨ estimate_dwt_from_ais st l w = 10000 ∨
    estimate_dwt_from_ais st l w = 15000 ∨ estimate_dwt_from_ais st l w = 20000 ∨
    estimate_dwt_from_ais st l w = 50000 := by
  unfold estimate_dwt_from_ais
  split_ifs <;> norm_num

/-- The DWT estimator's output lies in `(0, 50000]`. -/
theorem estimate_dwt_bounds (st : String) (l w : ℚ) :
    0 < estimate_dwt_from_ais st l w ∧ estimate_dwt_from_ais st l w ≤ 50000 := by
  rcases estimate_dwt_cases st l w with h | h | h | h | h | h | h <;> rw [h] <;> norm_num

/-- Draft from a DWT of at most 50000 tons is at most 35 ft. -/
theorem draft_le_35 (d : ℚ) (st : String) (h : d ≤ 50000) :
    estimate_vessel_draft d st ≤ 35 := by
  unfold estimate_vessel_draft
  split_ifs with h1 h2 h3 h4 h5
  · linarith
  all_goals norm_num

/-- Over the built-in Tobin site the chosen pier always has lateral capacity
5000 kips and water depth 35 ft, the reported minimum distance is the
distance to the chosen pier, and looking the chosen id back up returns the
chosen pier. -/
theorem tobin_closest_pier_spec (G : Geodesy) (lat lon : ℚ) :
    (find_closest_pier G TOBIN_BRIDGE_PIERS lat lon).1.2.lateral_capacity_kips = 5000 ∧
    (find_closest_pier G TOBIN_BRIDGE_PIERS lat lon).1.2.water_depth_ft = 35 ∧
    (find_closest_pier G TOBIN_BRIDGE_PIERS lat lon).2 =
      G.calculate_distance lat lon
        (find_closest_pier G TOBIN_BRIDGE_PIERS lat lon).1.2.lat
        (find_closest_pier G TOBIN_BRIDGE_PIERS lat lon).1.2.lon ∧
    pierLookup TOBIN_BRIDGE_PIERS (find_closest_pier G TOBIN_BRIDGE_PIERS lat lon).1.1 =
      (find_closest_pier G TOBIN_BRIDGE_PIERS lat lon).1.2 := by
  simp only [find_closest_pier, TOBIN_BRIDGE_PIERS, List.foldl]
  split_ifs <;> exact ⟨rfl, rfl, rfl, rfl⟩

/-- The vessel analysis over the built-in Tobin site never sets the grounding
flag: the estimator's draft never exceeds 35 ft against 35 ft of water. -/
theorem tobin_never_grounds (G : Geodesy) (s : ShipData) :
    (analyze_vessel G TOBIN_BRIDGE_PIERS s).will_ground = false := by
  obtain ⟨-, hdepth, -, -⟩ := tobin_closest_pier_spec G s.Latitude s.Longitude
  obtain ⟨-, hdwt⟩ := estimate_dwt_bounds s.ShipType (s.dimA + s.dimB) (s.dimC + s.dimD)
  have hdraft := draft_le_35 _ s.ShipType hdwt
  simp only [analyze_vessel, check_grounding_risk, hdepth]
  rw [decide_eq_false_iff_not]
  linarith

/-- C9: the deadweight estimate is independent of the width argument — the
`width` parameter of `estimate_dwt_from_ais` is never read. -/
theorem C9_dwt_width_independent (ship_type : String) (length w1 w2 : ℚ) :
    estimate_dwt_from_ais ship_type length w1 = estimate_dwt_from_ais ship_type length w2 :=
  rfl

/-- C6: `check_grounding_risk` returns clearance `depth - draft` and grounds
iff the clearance is strictly below `-10` ft; the draft estimated from a DWT
of 60000 tons is 45 ft, and against 35 ft of water the clearance is exactly
`-10` ft with the grounding flag false. -/
theorem C6_grounding_boundary (draft depth : ℚ) (st : String) :
    (check_grounding_risk draft depth).2 = depth - draft ∧
    ((check_grounding_risk draft depth).1 = true ↔ depth - draft < -10) ∧
    estimate_vessel_draft 60000 st = 45 ∧
    check_grounding_risk 45 35 = (false, -10) := by
  refine ⟨rfl, ?_, ?_, ?_⟩
  · simp [check_grounding_risk]
  · norm_num [estimate_vessel_draft]
  · simp only [check_grounding_risk, Prod.ext_iff]
    norm_num

/-- C2: if the produced analysis has the grounding flag set, its impact force
and D/C ratio are exactly zero. -/
theorem C2_grounding_preempts_impact (G : Geodesy) (site : BridgeSite) (s : ShipData)
    (h : (analyze_vessel G site s).will_ground = true) :
    (analyze_vessel G site s).impact_force_kips = 0 ∧
    (analyze_vessel G site s).dc_ratio = 0 := by
  simp only [analyze_vessel] at h ⊢
  simp [h]

/-- Witness for C2: on the 20 ft site the 260 m vessel grounds, and its
impact force and D/C ratio are zero. -/
theorem C2_witness :
    (analyze_vessel linGeo shallowSite bigShip).will_ground = true ∧
    (analyze_vessel linGeo shallowSite bigShip).impact_force_kips = 0 ∧
    (analyze_vessel linGeo shallowSite bigShip).dc_ratio = 0 := by
  have h : (analyze_vessel linGeo shallowSite bigShip).will_ground = true := by
    norm_num [analyze_vessel, shallowSite, bigShip, find_closest_pier, linGeo,
      estimate_dwt_from_ais, estimate_vessel_draft, check_grounding_risk]
  exact ⟨h, C2_grounding_preempts_impact linGeo shallowSite bigShip h⟩

/-- The trajectory factor lies in `[0, 1]`. -/
theorem trajectory_factor_mem (w : Bool) (c : ℚ) :
    0 ≤ trajectory_factor w c ∧ trajectory_factor w c ≤ 1 := by
  unfold trajectory_factor
  split_ifs <;> norm_num

/-- The grounding-prevents factor lies in `[0, 1]`. -/
theorem grounding_prevents_mem (w : Bool) (u : ℚ) :
    0 ≤ grounding_prevents_factor w u ∧ grounding_prevents_factor w u ≤ 1 := by
  unfold grounding_prevents_factor
  split_ifs <;> norm_num

/-- The maneuverability factor lies in `[0, 1]`. -/
theorem maneuver_factor_mem (sp d : ℚ) :
    0 ≤ maneuver_factor sp d ∧ maneuver_factor sp d ≤ 1 := by
  unfold maneuver_factor
  split_ifs <;> norm_num

/-- The severity factor lies in `[0, 1]`. -/
theorem severity_factor_mem (dc : ℚ) :
    0 ≤ severity_factor dc ∧ severity_factor dc ≤ 1 := by
  unfold severity_factor
  split_ifs <;> norm_num

/-- C7: the allision probability is the product
`trajectory * (1 - groundingPrevents) * maneuver * severity`; each factor
lies in `[0, 1]`, hence the probability lies in `[0, 1]`; and the category is
NEGLIGIBLE below 0.05, LOW below 0.15, MODERATE below 0.35, HIGH otherwise. -/
theorem C7_probability_model (s : ShipData) (a : VesselAnalysis) (cr : CollisionRisk) :
    (calculate_allision_probability s a cr).probability =
      trajectory_factor cr.will_approach cr.cpa_distance_nm *
      (1 - grounding_prevents_factor a.will_ground a.ukc_ft) *
      maneuver_factor s.Sog a.distance_to_pier_nm *
      severity_factor a.dc_ratio ∧
    (0 ≤ trajectory_factor cr.will_approach cr.cpa_distance_nm ∧
      trajectory_factor cr.will_approach cr.cpa_distance_nm ≤ 1) ∧
    (0 ≤ grounding_prevents_factor a.will_ground a.ukc_ft ∧
      grounding_prevents_factor a.will_ground a.ukc_ft ≤ 1) ∧
    (0 ≤ maneuver_factor s.Sog a.distance_to_pier_nm ∧
      maneuver_factor s.Sog a.distance_to_pier_nm ≤ 1) ∧
    (0 ≤ severity_factor a.dc_ratio ∧ severity_factor a.dc_ratio ≤ 1) ∧
    0 ≤ (calculate_allision_probability s a cr).probability ∧
    (calculate_allision_probability s a cr).probability ≤ 1 ∧
    (calculate_allision_probability s a cr).probability_category =
      (if (calculate_allision_probability s a cr).probability < 0.05 then "NEGLIGIBLE"
       else if (calculate_allision_probability s a cr).probability < 0.15 then "LOW"
       else if (calculate_allision_probability s a cr).probability < 0.35 then "MODERATE"
       else "HIGH") := by
  obtain ⟨htf0, htf1⟩ := trajectory_factor_mem cr.will_approach cr.cpa_distance_nm
  obtain ⟨hgp0, hgp1⟩ := grounding_prevents_mem a.will_ground a.ukc_ft
  obtain ⟨hmf0, hmf1⟩ := maneuver_factor_mem s.Sog a.distance_to_pier_nm
  obtain ⟨hsf0, hsf1⟩ := severity_factor_mem a.dc_ratio
  refine ⟨rfl, ⟨htf0, htf1⟩, ⟨hgp0, hgp1⟩, ⟨hmf0, hmf1⟩, ⟨hsf0, hsf1⟩, ?_, ?_, ?_⟩
  · exact mul_nonneg (mul_nonneg (mul_nonneg htf0 (by linarith)) hmf0) hsf0
  · have h1 : trajectory_factor cr.will_approach cr.cpa_distance_nm *
        (1 - grounding_prevents_factor a.will_ground a.ukc_ft) ≤ 1 :=
      mul_le_one₀ htf1 (by linarith) (by linarith)
    have h2 : trajectory_factor cr.will_approach cr.cpa_distance_nm *
        (1 - grounding_prevents_factor a.will_ground a.ukc_ft) *
        maneuver_factor s.Sog a.distance_to_pier_nm ≤ 1 :=
      mul_le_one₀ h1 hmf0 hmf1
    exact mul_le_one₀ h2 hsf0 hsf1
  · simp only [calculate_allision_probability]
    split_ifs <;> rfl

/-- C1: the decision table is evaluated top-to-bottom with first match
winning: whenever the classifier's look-ahead reports not-approaching and the
distance to the pier exceeds 1 nm (rule 2), the result is NEGLIGIBLE THREAT
even when all of rule 6's numeric ALARM thresholds (D/C ≥ 1.0, speed > 15 kn,
distance < 2 nm) hold. -/
theorem C1_rule2_beats_rule6 (G : Geodesy) (site : BridgeSite) (s : ShipData)
    (a : VesselAnalysis)
    (hflag : approachingFlag G s.Latitude s.Longitude s.Sog s.Cog
      (pierLookup site a.closest_pier_id) a.distance_to_pier_nm = false)
    (hdist : a.distance_to_pier_nm > 1.0)
    (hdc : a.dc_ratio ≥ 1.0) (hsp : s.Sog > 15) (hd2 : a.distance_to_pier_nm < 2) :
    (assess_collision_risk G site s a).risk_level = "NEGLIGIBLE THREAT" := by
  simp only [assess_collision_risk]
  rcases Bool.eq_false_or_eq_true a.will_ground with hg | hg
  · simp [hg]
  · simp [hg, hflag, hdist]

/-- Witness for C1: the spec's literal case — speed 20 kn, course directly
away from the bridge, distance 1.5 nm, D/C 1.2 — classifies as NEGLIGIBLE
THREAT. -/
theorem C1_witness :
    approachingFlag linGeo awayShip.Latitude awayShip.Longitude awayShip.Sog awayShip.Cog
      (pierLookup TOBIN_BRIDGE_PIERS awayAnalysis.closest_pier_id)
      awayAnalysis.distance_to_pier_nm = false ∧
    awayAnalysis.distance_to_pier_nm > 1.0 ∧ awayAnalysis.dc_ratio ≥ 1.0 ∧
    awayShip.Sog > 15 ∧ awayAnalysis.distance_to_pier_nm < 2 ∧
    (assess_collision_risk linGeo TOBIN_BRIDGE_PIERS awayShip awayAnalysis).risk_level =
      "NEGLIGIBLE THREAT" := by
  have hlp : pierLookup TOBIN_BRIDGE_PIERS awayAnalysis.closest_pier_id = pier_3 := rfl
  have hflag : approachingFlag linGeo awayShip.Latitude awayShip.Longitude awayShip.Sog
      awayShip.Cog (pierLookup TOBIN_BRIDGE_PIERS awayAnalysis.closest_pier_id)
      awayAnalysis.distance_to_pier_nm = false := by
    rw [hlp]
    norm_num [approachingFlag, linGeo, awayShip, awayAnalysis, qabs, pier_3]
  refine ⟨hflag, by norm_num [awayAnalysis], by norm_num [awayAnalysis],
    by norm_num [awayShip], by norm_num [awayAnalysis], ?_⟩
  exact C1_rule2_beats_rule6 linGeo TOBIN_BRIDGE_PIERS awayShip awayAnalysis hflag
    (by norm_num [awayAnalysis]) (by norm_num [awayAnalysis])
    (by norm_num [awayShip]) (by norm_num [awayAnalysis])

/-- Over the built-in Tobin site, a non-negative speed below 0.5 kn gives an
impact force below 2500 kips and a D/C ratio below 0.5 (DWT is capped at
50000 tons and every pier capacity is 5000 kips). -/
theorem tobin_dc_small (G : Geodesy) (s : ShipData) (h0 : 0 ≤ s.Sog)
    (h1 : s.Sog < 0.5) :
    (analyze_vessel G TOBIN_BRIDGE_PIERS s).impact_force_kips < 2500 ∧
    (analyze_vessel G TOBIN_BRIDGE_PIERS s).dc_ratio < 0.5 := by
  have hg := tobin_never_grounds G s
  obtain ⟨hcap, -, -, -⟩ := tobin_closest_pier_spec G s.Latitude s.Longitude
  obtain ⟨hdwt0, hdwtle⟩ :=
    estimate_dwt_bounds s.ShipType (s.dimA + s.dimB) (s.dimC + s.dimD)
  have hsq : s.Sog ^ 2 ≤ (1 / 4 : ℚ) := by nlinarith
  have hprod : s.Sog ^ 2 * estimate_dwt_from_ais s.ShipType (s.dimA + s.dimB)
      (s.dimC + s.dimD) ≤ 12500 := by nlinarith
  have himp : calculate_impact_force_aashto
      (estimate_dwt_from_ais s.ShipType (s.dimA + s.dimB) (s.dimC + s.dimD)) s.Sog < 2500 := by
    unfold calculate_impact_force_aashto
    rw [div_lt_iff₀ (by norm_num)]
    nlinarith [hprod, sq_nonneg s.Sog, mul_nonneg (sq_nonneg s.Sog) hdwt0.le]
  simp only [analyze_vessel] at hg ⊢
  simp only [hg, Bool.false_eq_true, if_false] at *
  rw [hcap]
  refine ⟨himp, ?_⟩
  unfold calculate_dc_ratio
  rw [if_neg (by norm_num)]
  rw [div_lt_iff₀ (by norm_num)]
  linarith

/-- C8: under the built-in Tobin site, every report with non-negative speed
below 0.5 kn (and no grounding, which never occurs on this site) has impact
force below 2500 kips and D/C below 0.5, so rule 3 fires before rule 5 and
the classifier's "stationary" description is unreachable for every input. -/
theorem C8_stationary_branch_unreachable (G : Geodesy) (s : ShipData)
    (h0 : 0 ≤ s.Sog) :
    (s.Sog < 0.5 → (analyze_vessel G TOBIN_BRIDGE_PIERS s).will_ground = false →
      (analyze_vessel G TOBIN_BRIDGE_PIERS s).impact_force_kips < 2500 ∧
      (analyze_vessel G TOBIN_BRIDGE_PIERS s).dc_ratio < 0.5) ∧
    (assess_collision_risk G TOBIN_BRIDGE_PIERS s
      (analyze_vessel G TOBIN_BRIDGE_PIERS s)).risk_description ≠
      "Vessel stationary - Routine tracking" := by
  refine ⟨fun h1 _ => tobin_dc_small G s h0 h1, ?_⟩
  by_cases hsp : s.Sog < 0.5
  · have hdc := (tobin_dc_small G s h0 hsp).2
    simp only [assess_collision_risk]
    split_ifs <;> simp_all
  · simp only [assess_collision_risk]
    split_ifs <;> simp_all

/-- `calculate_dc_ratio 0 c = 0` for every capacity. -/
theorem dc_ratio_zero (c : ℚ) : calculate_dc_ratio 0 c = 0 := by
  unfold calculate_dc_ratio
  split_ifs <;> simp

/-- A report at speed 0 produces a zero D/C ratio whenever it does not
ground. -/
theorem analyze_zero_speed_dc (G : Geodesy) (site : BridgeSite) (s : ShipData)
    (h : s.Sog = 0) (hg : (analyze_vessel G site s).will_ground = false) :
    (analyze_vessel G site s).dc_ratio = 0 := by
  simp only [analyze_vessel] at hg ⊢
  simp only [hg, Bool.false_eq_true, if_false]
  rw [h]
  norm_num [calculate_impact_force_aashto, dc_ratio_zero]

/-- Counterexample for C4: a speed-0 report within 10 nm of the bridge whose
classifier description is the rule-2 "headed away" text, not the claimed
"stationary" text (rule 5 is shadowed by rules 2 and 3 at zero speed). -/
theorem C4_counterexample :
    zeroShip.Sog = 0 ∧
    (analyze_vessel linGeo TOBIN_BRIDGE_PIERS zeroShip).distance_to_pier_nm ≤ 10 ∧
    (assess_collision_risk linGeo TOBIN_BRIDGE_PIERS zeroShip
      (analyze_vessel linGeo TOBIN_BRIDGE_PIERS zeroShip)).risk_description =
      "Vessel headed away - Routine tracking" ∧
    (assess_collision_risk linGeo TOBIN_BRIDGE_PIERS zeroShip
      (analyze_vessel linGeo TOBIN_BRIDGE_PIERS zeroShip)).risk_description ≠
      "Vessel stationary - Routine tracking" := by
  have hana : (analyze_vessel linGeo TOBIN_BRIDGE_PIERS zeroShip).distance_to_pier_nm = 5 := by
    norm_num [analyze_vessel, find_closest_pier, linGeo, TOBIN_BRIDGE_PIERS, qabs,
      pier_1, pier_2, pier_3, zeroShip]
  have hg := tobin_never_grounds linGeo zeroShip
  have hdc := analyze_zero_speed_dc linGeo TOBIN_BRIDGE_PIERS zeroShip rfl hg
  have hflag : ∀ (p : Pier) (d : ℚ), approachingFlag linGeo zeroShip.Latitude
      zeroShip.Longitude zeroShip.Sog zeroShip.Cog p d = false := by
    intro p d
    norm_num [approachingFlag, zeroShip]
  refine ⟨rfl, by rw [hana]; norm_num, ?_, ?_⟩ <;>
      simp only [assess_collision_risk, hflag, hg, hana, hdc] <;> norm_num
  decide

/-- C4 (amended): a speed-0 report anywhere within 10 nm classifies as
NEGLIGIBLE THREAT — with the "headed away" description beyond 1 nm and the
"too small" description otherwise, never "stationary" — and its allision
probability category is NEGLIGIBLE. -/
theorem C4_zero_speed_negligible (G : Geodesy) (s : ShipData) (h : s.Sog = 0)
    (hd : (analyze_vessel G TOBIN_BRIDGE_PIERS s).distance_to_pier_nm ≤ 10) :
    (assess_collision_risk G TOBIN_BRIDGE_PIERS s
      (analyze_vessel G TOBIN_BRIDGE_PIERS s)).risk_level = "NEGLIGIBLE THREAT" ∧
    (assess_collision_risk G TOBIN_BRIDGE_PIERS s
      (analyze_vessel G TOBIN_BRIDGE_PIERS s)).risk_description =
      (if (analyze_vessel G TOBIN_BRIDGE_PIERS s).distance_to_pier_nm > 1.0 then
        "Vessel headed away - Routine tracking"
       else "Vessel too small - Routine tracking") ∧
    (calculate_allision_probability s (analyze_vessel G TOBIN_BRIDGE_PIERS s)
      (assess_collision_risk G TOBIN_BRIDGE_PIERS s
        (analyze_vessel G TOBIN_BRIDGE_PIERS s))).probability_category = "NEGLIGIBLE" := by
  have hg := tobin_never_grounds G s
  have hdc := analyze_zero_speed_dc G TOBIN_BRIDGE_PIERS s h hg
  have hflag : approachingFlag G s.Latitude s.Longitude s.Sog s.Cog
      (pierLookup TOBIN_BRIDGE_PIERS
        (analyze_vessel G TOBIN_BRIDGE_PIERS s).closest_pier_id)
      (analyze_vessel G TOBIN_BRIDGE_PIERS s).distance_to_pier_nm = false := by
    norm_num [approachingFlag, h]
  have hwa : (assess_collision_risk G TOBIN_BRIDGE_PIERS s
      (analyze_vessel G TOBIN_BRIDGE_PIERS s)).will_approach = false := by
    simp only [assess_collision_risk]
    norm_num [calculate_closest_point_of_approach, h]
  refine ⟨?_, ?_, ?_⟩
  · simp only [assess_collision_risk, hflag, hg, hdc]
    by_cases hd1 : (analyze_vessel G TOBIN_BRIDGE_PIERS s).distance_to_pier_nm > 1.0 <;>
      simp [hd1] <;> norm_num
  · simp only [assess_collision_risk, hflag, hg, hdc]
    by_cases hd1 : (analyze_vessel G TOBIN_BRIDGE_PIERS s).distance_to_pier_nm > 1.0 <;>
      simp [hd1] <;> norm_num
  · simp only [calculate_allision_probability, hwa]
    norm_num [trajectory_factor]

/-- Witness for C4 (amended): the stationary 200 m vessel 5 nm from Pier 3 is
NEGLIGIBLE THREAT with NEGLIGIBLE probability category. -/
theorem C4_witness :
    zeroShip.Sog = 0 ∧
    (analyze_vessel linGeo TOBIN_BRIDGE_PIERS zeroShip).distance_to_pier_nm ≤ 10 ∧
    (assess_collision_risk linGeo TOBIN_BRIDGE_PIERS zeroShip
      (analyze_vessel linGeo TOBIN_BRIDGE_PIERS zeroShip)).risk_level =
      "NEGLIGIBLE THREAT" ∧
    (calculate_allision_probability zeroShip
      (analyze_vessel linGeo TOBIN_BRIDGE_PIERS zeroShip)
      (assess_collision_risk linGeo TOBIN_BRIDGE_PIERS zeroShip
        (analyze_vessel linGeo TOBIN_BRIDGE_PIERS zeroShip))).probability_category =
      "NEGLIGIBLE" := by
  have hd : (analyze_vessel linGeo TOBIN_BRIDGE_PIERS zeroShip).distance_to_pier_nm ≤ 10 := by
    norm_num [analyze_vessel, find_closest_pier, linGeo, TOBIN_BRIDGE_PIERS, qabs,
      pier_1, pier_2, pier_3, zeroShip]
  obtain ⟨h1, -, h3⟩ := C4_zero_speed_negligible linGeo zeroShip rfl hd
  exact ⟨rfl, hd, h1, h3⟩

/-- Witness for C8: the 0.2 kn drifting vessel has impact force below
2500 kips, D/C below 0.5, and is not classified with the "stationary"
description. -/
theorem C8_witness :
    0 ≤ slowShip.Sog ∧ slowShip.Sog < 0.5 ∧
    (analyze_vessel linGeo TOBIN_BRIDGE_PIERS slowShip).will_ground = false ∧
    (analyze_vessel linGeo TOBIN_BRIDGE_PIERS slowShip).impact_force_kips < 2500 ∧
    (analyze_vessel linGeo TOBIN_BRIDGE_PIERS slowShip).dc_ratio < 0.5 ∧
    (assess_collision_risk linGeo TOBIN_BRIDGE_PIERS slowShip
      (analyze_vessel linGeo TOBIN_BRIDGE_PIERS slowShip)).risk_description ≠
      "Vessel stationary - Routine tracking" := by
  have h0 : (0 : ℚ) ≤ slowShip.Sog := by norm_num [slowShip]
  have h1 : slowShip.Sog < 0.5 := by norm_num [slowShip]
  obtain ⟨ha, hb⟩ := C8_stationary_branch_unreachable linGeo slowShip h0
  obtain ⟨hi, hd⟩ := ha h1 (tobin_never_grounds linGeo slowShip)
  exact ⟨h0, h1, tobin_never_grounds linGeo slowShip, hi, hd, hb⟩

set_option maxRecDepth 8000 in
/-- C10: at exactly 0.5 kn the two stationary guards disagree — the
classifier's look-ahead flag (guard `speed > 0.5`) is false for every
geometry, while the CPA solver (guard `speed < 0.5`) runs the full scan, and
there is a report at exactly 0.5 kn whose CPAResult has `will_approach` true
while the classifier's `approaching` flag is false. -/
theorem C10_stationary_guards_disagree :
    (∀ (G : Geodesy) (lat lon course : ℚ) (p : Pier) (d : ℚ),
      approachingFlag G lat lon 0.5 course p d = false) ∧
    halfShip.Sog = 0.5 ∧
    (assess_collision_risk linGeo TOBIN_BRIDGE_PIERS halfShip
      (analyze_vessel linGeo TOBIN_BRIDGE_PIERS halfShip)).will_approach = true ∧
    (assess_collision_risk linGeo TOBIN_BRIDGE_PIERS halfShip
      (analyze_vessel linGeo TOBIN_BRIDGE_PIERS halfShip)).approaching = false := by
  have hid : (analyze_vessel linGeo TOBIN_BRIDGE_PIERS halfShip).closest_pier_id =
      "pier_3" := by
    norm_num [analyze_vessel, find_closest_pier, linGeo, TOBIN_BRIDGE_PIERS, qabs,
      pier_1, pier_2, pier_3, halfShip]
  have hlp : pierLookup TOBIN_BRIDGE_PIERS "pier_3" = pier_3 := rfl
  refine ⟨fun G lat lon course p d => by norm_num [approachingFlag], rfl, ?_, ?_⟩
  · simp only [assess_collision_risk, hid, hlp]
    norm_num [calculate_closest_point_of_approach, cpaScan, cpaProfile, linGeo,
      halfShip, qabs, pier_3]
  · simp only [assess_collision_risk, hid, hlp]
    norm_num [approachingFlag, halfShip]

/-- The analysis's chosen pier id is the one found by the closest-pier scan. -/
theorem analyze_id (G : Geodesy) (site : BridgeSite) (s : ShipData) :
    (analyze_vessel G site s).closest_pier_id =
      (find_closest_pier G site s.Latitude s.Longitude).1.1 := by
  simp [analyze_vessel]

/-- The analysis's distance to pier is the one found by the closest-pier
scan. -/
theorem analyze_dist (G : Geodesy) (site : BridgeSite) (s : ShipData) :
    (analyze_vessel G site s).distance_to_pier_nm =
      (find_closest_pier G site s.Latitude s.Longitude).2 := by
  simp [analyze_vessel]

/-- The analysis's under-keel clearance is pier depth minus estimated
draft. -/
theorem analyze_ukc (G : Geodesy) (site : BridgeSite) (s : ShipData) :
    (analyze_vessel G site s).ukc_ft =
      (find_closest_pier G site s.Latitude s.Longitude).1.2.water_depth_ft -
        estimate_vessel_draft
          (estimate_dwt_from_ais s.ShipType (s.dimA + s.dimB) (s.dimC + s.dimD))
          s.ShipType := by
  simp [analyze_vessel, check_grounding_risk]

/-- In the non-grounding branch the analysis's D/C ratio is the AASHTO force
over the chosen pier's capacity. -/
theorem analyze_dc_formula (G : Geodesy) (site : BridgeSite) (s : ShipData)
    (hg : (analyze_vessel G site s).will_ground = false) :
    (analyze_vessel G site s).dc_ratio =
      calculate_dc_ratio
        (calculate_impact_force_aashto
          (estimate_dwt_from_ais s.ShipType (s.dimA + s.dimB) (s.dimC + s.dimD)) s.Sog)
        (find_closest_pier G site s.Latitude s.Longitude).1.2.lateral_capacity_kips := by
  simp only [analyze_vessel] at hg ⊢
  simp [hg]

/-- A D/C ratio of at least one maps to the maximal severity factor. -/
theorem severity_factor_of_ge (dc : ℚ) (h : dc ≥ 1.0) : severity_factor dc = 1.0 := by
  unfold severity_factor
  split_ifs with h1 h2 h3 <;> first | rfl | linarith

/-- C5: a report at speed 18 kn whose estimated DWT is at least 20000 tons,
1 nm from its nearest Tobin pier and closing head-on (projected distance
`|1 - 0.3 t|` nm after `t` minutes), yields D/C ≥ 1.0, classifies as ALARM,
and has allision probability category HIGH. -/
theorem C5_alarm_scenario (G : Geodesy) (s : ShipData)
    (hsp : s.Sog = 18)
    (hdwt : 20000 ≤ estimate_dwt_from_ais s.ShipType (s.dimA + s.dimB) (s.dimC + s.dimD))
    (hd : (analyze_vessel G TOBIN_BRIDGE_PIERS s).distance_to_pier_nm = 1)
    (hprof : ∀ t : ℚ,
      G.calculate_distance
        (G.predict_position s.Latitude s.Longitude s.Sog s.Cog t).1
        (G.predict_position s.Latitude s.Longitude s.Sog s.Cog t).2
        (pierLookup TOBIN_BRIDGE_PIERS
          (analyze_vessel G TOBIN_BRIDGE_PIERS s).closest_pier_id).lat
        (pierLookup TOBIN_BRIDGE_PIERS
          (analyze_vessel G TOBIN_BRIDGE_PIERS s).closest_pier_id).lon
        = qabs (1 - 0.3 * t)) :
    (analyze_vessel G TOBIN_BRIDGE_PIERS s).dc_ratio ≥ 1.0 ∧
    (assess_collision_risk G TOBIN_BRIDGE_PIERS s
      (analyze_vessel G TOBIN_BRIDGE_PIERS s)).risk_level = "ALARM" ∧
    (calculate_allision_probability s (analyze_vessel G TOBIN_BRIDGE_PIERS s)
      (assess_collision_risk G TOBIN_BRIDGE_PIERS s
        (analyze_vessel G TOBIN_BRIDGE_PIERS s))).probability_category = "HIGH" := by
  have hg := tobin_never_grounds G s
  obtain ⟨hcap, hdepth, hrdist, hlook⟩ := tobin_closest_pier_spec G s.Latitude s.Longitude
  have hdd : estimate_dwt_from_ais s.ShipType (s.dimA + s.dimB) (s.dimC + s.dimD) = 20000 ∨
      estimate_dwt_from_ais s.ShipType (s.dimA + s.dimB) (s.dimC + s.dimD) = 50000 := by
    rcases estimate_dwt_cases s.ShipType (s.dimA + s.dimB) (s.dimC + s.dimD) with
      h | h | h | h | h | h | h <;> rw [h] at hdwt ⊢ <;> norm_num at hdwt ⊢
  have hdcge : (analyze_vessel G TOBIN_BRIDGE_PIERS s).dc_ratio ≥ 1.0 := by
    rw [analyze_dc_formula G TOBIN_BRIDGE_PIERS s hg, hcap, hsp]
    rcases hdd with h | h <;> rw [h] <;>
      norm_num [calculate_dc_ratio, calculate_impact_force_aashto]
  have hukc : (analyze_vessel G TOBIN_BRIDGE_PIERS s).ukc_ft = 7 ∨
      (analyze_vessel G TOBIN_BRIDGE_PIERS s).ukc_ft = 0 := by
    rw [analyze_ukc, hdepth]
    rcases hdd with h | h <;> rw [h] <;> norm_num [estimate_vessel_draft]
  have hpl : pierLookup TOBIN_BRIDGE_PIERS
      (analyze_vessel G TOBIN_BRIDGE_PIERS s).closest_pier_id =
      (find_closest_pier G TOBIN_BRIDGE_PIERS s.Latitude s.Longitude).1.2 := by
    rw [analyze_id]
    exact hlook
  have hfd : (find_closest_pier G TOBIN_BRIDGE_PIERS s.Latitude s.Longitude).2 = 1 := by
    rw [← analyze_dist]
    exact hd
  have hcur : G.calculate_distance s.Latitude s.Longitude
      (pierLookup TOBIN_BRIDGE_PIERS
        (analyze_vessel G TOBIN_BRIDGE_PIERS s).closest_pier_id).lat
      (pierLookup TOBIN_BRIDGE_PIERS
        (analyze_vessel G TOBIN_BRIDGE_PIERS s).closest_pier_id).lon = 1 := by
    rw [hpl, ← hrdist]
    exact hfd
  have happ : approachingFlag G s.Latitude s.Longitude s.Sog s.Cog
      (pierLookup TOBIN_BRIDGE_PIERS
        (analyze_vessel G TOBIN_BRIDGE_PIERS s).closest_pier_id)
      (analyze_vessel G TOBIN_BRIDGE_PIERS s).distance_to_pier_nm = true := by
    simp only [approachingFlag]
    rw [if_pos (by rw [hsp]; norm_num), hprof 5, hd]
    norm_num [qabs]
  have hdfun : cpaProfile G s.Latitude s.Longitude s.Sog s.Cog
      (pierLookup TOBIN_BRIDGE_PIERS
        (analyze_vessel G TOBIN_BRIDGE_PIERS s).closest_pier_id).lat
      (pierLookup TOBIN_BRIDGE_PIERS
        (analyze_vessel G TOBIN_BRIDGE_PIERS s).closest_pier_id).lon
      = fun t : ℕ => qabs (1 - 0.3 * (t : ℚ)) := by
    funext t
    exact hprof (t : ℚ)
  have hcpa : calculate_closest_point_of_approach G s.Latitude s.Longitude s.Sog s.Cog
      (pierLookup TOBIN_BRIDGE_PIERS
        (analyze_vessel G TOBIN_BRIDGE_PIERS s).closest_pier_id).lat
      (pierLookup TOBIN_BRIDGE_PIERS
        (analyze_vessel G TOBIN_BRIDGE_PIERS s).closest_pier_id).lon
      = (1/10, 3, true) := by
    simp only [calculate_closest_point_of_approach]
    rw [if_neg (by rw [hsp]; norm_num), hcur, hdfun]
    norm_num [cpaScan, qabs]
  refine ⟨hdcge, ?_, ?_⟩
  · simp only [assess_collision_risk]
    split_ifs with h1 h2 h3 h4 h5 h6
    · simp [hg] at h1
    · simp [happ] at h2
    · linarith [hdcge]
    · rw [hd] at h4; norm_num at h4
    · rw [hsp] at h5; norm_num at h5
    · rfl
    all_goals exact
      (h6 ⟨hdcge, by rw [hsp]; norm_num, happ, by rw [hd]; norm_num⟩).elim
  · have hwa : (assess_collision_risk G TOBIN_BRIDGE_PIERS s
        (analyze_vessel G TOBIN_BRIDGE_PIERS s)).will_approach = true := by
      simp only [assess_collision_risk, hcpa]
    have hcd : (assess_collision_risk G TOBIN_BRIDGE_PIERS s
        (analyze_vessel G TOBIN_BRIDGE_PIERS s)).cpa_distance_nm = 1/10 := by
      simp only [assess_collision_risk, hcpa]
    simp only [calculate_allision_probability, hwa, hcd, hg, hd, hsp,
      severity_factor_of_ge _ hdcge]
    rcases hukc with h | h <;> rw [h] <;>
      norm_num [trajectory_factor, grounding_prevents_factor, maneuver_factor]

/-- Algebraic form of the head-on closing profile under `linGeo`. -/
theorem qabs_lin_helper (a b t : ℚ) :
    qabs (a - a) + qabs (b + 1 - 18 * t / 60 - b) = qabs (1 - 0.3 * t) := by
  have h1 : a - a = 0 := sub_self a
  have h2 : b + 1 - 18 * t / 60 - b = 1 - 0.3 * t := by ring
  rw [h1, h2]
  norm_num [qabs]

/-- Witness for C5: the concrete head-on 18 kn scenario satisfies every
hypothesis and yields D/C ≥ 1, ALARM, and probability category HIGH. -/
theorem C5_witness :
    c5Ship.Sog = 18 ∧
    20000 ≤ estimate_dwt_from_ais c5Ship.ShipType (c5Ship.dimA + c5Ship.dimB)
      (c5Ship.dimC + c5Ship.dimD) ∧
    (analyze_vessel linGeo TOBIN_BRIDGE_PIERS c5Ship).distance_to_pier_nm = 1 ∧
    (analyze_vessel linGeo TOBIN_BRIDGE_PIERS c5Ship).dc_ratio ≥ 1.0 ∧
    (assess_collision_risk linGeo TOBIN_BRIDGE_PIERS c5Ship
      (analyze_vessel linGeo TOBIN_BRIDGE_PIERS c5Ship)).risk_level = "ALARM" ∧
    (calculate_allision_probability c5Ship (analyze_vessel linGeo TOBIN_BRIDGE_PIERS c5Ship)
      (assess_collision_risk linGeo TOBIN_BRIDGE_PIERS c5Ship
        (analyze_vessel linGeo TOBIN_BRIDGE_PIERS c5Ship))).probability_category =
      "HIGH" := by
  have hsp : c5Ship.Sog = 18 := rfl
  have hdwt : 20000 ≤ estimate_dwt_from_ais c5Ship.ShipType (c5Ship.dimA + c5Ship.dimB)
      (c5Ship.dimC + c5Ship.dimD) := by
    norm_num [estimate_dwt_from_ais, c5Ship]
  have hd : (analyze_vessel linGeo TOBIN_BRIDGE_PIERS c5Ship).distance_to_pier_nm = 1 := by
    norm_num [analyze_vessel, find_closest_pier, linGeo, TOBIN_BRIDGE_PIERS, qabs,
      pier_1, pier_2, pier_3, c5Ship]
  have hid : (analyze_vessel linGeo TOBIN_BRIDGE_PIERS c5Ship).closest_pier_id =
      "pier_3" := by
    norm_num [analyze_vessel, find_closest_pier, linGeo, TOBIN_BRIDGE_PIERS, qabs,
      pier_1, pier_2, pier_3, c5Ship]
  have hprof : ∀ t : ℚ, linGeo.calculate_distance
      (linGeo.predict_position c5Ship.Latitude c5Ship.Longitude c5Ship.Sog c5Ship.Cog t).1
      (linGeo.predict_position c5Ship.Latitude c5Ship.Longitude c5Ship.Sog c5Ship.Cog t).2
      (pierLookup TOBIN_BRIDGE_PIERS
        (analyze_vessel linGeo TOBIN_BRIDGE_PIERS c5Ship).closest_pier_id).lat
      (pierLookup TOBIN_BRIDGE_PIERS
        (analyze_vessel linGeo TOBIN_BRIDGE_PIERS c5Ship).closest_pier_id).lon
      = qabs (1 - 0.3 * t) := by
    intro t
    rw [hid]
    simp only [linGeo, c5Ship]
    exact qabs_lin_helper pier_3.lat pier_3.lon t
  obtain ⟨h1, h2, h3⟩ := C5_alarm_scenario linGeo c5Ship hsp hdwt hd hprof
  exact ⟨hsp, hdwt, hd, h1, h2, h3⟩

/-- Invariant of the CPA sampling loop: starting from a sound running minimum
over the indices below `t`, the loop returns the minimum over all indices up
to some stopping index `T ≤ 60`, and either it exhausted the horizon
(`T = 60`) or it stopped at a `T` more than 5 minutes past the minimum's time
with the sampled distance above the minimum. -/
theorem cpaScan_inv (d E : ℕ → ℚ) (hE : ∀ u, 1 ≤ u → E u = d u) :
    ∀ (fuel t : ℕ) (minD : ℚ) (minT : ℕ),
      fuel + t = 61 → 1 ≤ t → minT < t → minD = E minT →
      (∀ u, u < t → minD ≤ E u) →
      ∃ T, t ≤ T + 1 ∧ T ≤ 60 ∧
        (cpaScan d fuel t minD minT).1 = E (cpaScan d fuel t minD minT).2 ∧
        (cpaScan d fuel t minD minT).2 ≤ T ∧
        (∀ u, u ≤ T → (cpaScan d fuel t minD minT).1 ≤ E u) ∧
        (T = 60 ∨ ((cpaScan d fuel t minD minT).2 + 5 < T ∧
          E T > (cpaScan d fuel t minD minT).1)) := by
  intro fuel
  induction fuel with
  | zero =>
    intro t minD minT hft h1t hmt hmd hmin
    have ht : t = 61 := by omega
    subst ht
    simp only [cpaScan]
    exact ⟨60, by omega, le_refl 60, hmd, by omega, fun u hu => hmin u (by omega),
      Or.inl rfl⟩
  | succ fuel ih =>
    intro t minD minT hft h1t hmt hmd hmin
    have hEt : E t = d t := hE t h1t
    simp only [cpaScan]
    by_cases hlt : d t < minD
    · rw [if_pos hlt]
      rw [if_neg (by rintro ⟨hc, -⟩; simp only at hc; omega)]
      have hminNew : ∀ u, u < t + 1 → d t ≤ E u := by
        intro u hu
        rcases Nat.lt_succ_iff_lt_or_eq.mp hu with h | h
        · exact le_of_lt (lt_of_lt_of_le hlt (hmin u h))
        · subst h
          rw [hEt]
      obtain ⟨T, hT1, hT2, h3, h4, h5, h6⟩ :=
        ih (t + 1) (d t) t (by omega) (by omega) (by omega) hEt.symm hminNew
      exact ⟨T, by omega, hT2, h3, h4, h5, h6⟩
    · rw [if_neg hlt]
      push_neg at hlt
      by_cases hbr : t > minT + 5 ∧ d t > minD
      · rw [if_pos hbr]
        refine ⟨t, by omega, by omega, hmd, by omega, ?_,
          Or.inr ⟨by omega, by rw [hEt]; exact hbr.2⟩⟩
        intro u hu
        rcases Nat.lt_or_ge u t with h | h
        · exact hmin u h
        · have huv : u = t := by omega
          subst huv
          rw [hEt]
          exact hlt
      · rw [if_neg hbr]
        have hminNew : ∀ u, u < t + 1 → minD ≤ E u := by
          intro u hu
          rcases Nat.lt_succ_iff_lt_or_eq.mp hu with h | h
          · exact hmin u h
          · subst h
            rw [hEt]
            exact hlt
        obtain ⟨T, hT1, hT2, h3, h4, h5, h6⟩ :=
          ih (t + 1) minD minT (by omega) (by omega) (by omega) hmd hminNew
        exact ⟨T, by omega, hT2, h3, h4, h5, h6⟩

/-- C3: for every report with speed at least 0.5 kn the CPA solver's result is
the running minimum of the sampled distances over some stopping index
`T ≤ 60`, where either the full 60-minute horizon was scanned or the loop
stopped more than 5 minutes past the minimum's time with the distance above
the minimum; `will_approach` holds iff the minimum beats the current distance
at positive time.  The early stop is only a first-local-minimum heuristic:
on the concrete profile `gfun` the solver reports CPA 3 nm at minute 2 while
the projected distance at minute 20 is 0 nm — the global minimum over the
horizon is missed. -/
theorem C3_cpa_first_local_minimum :
    (∀ (G : Geodesy) (slat slon sp course tlat tlon : ℚ), ¬ sp < 0.5 →
      ∃ T, T ≤ 60 ∧
        (calculate_closest_point_of_approach G slat slon sp course tlat tlon).1 =
          sampledDist G slat slon sp course tlat tlon
            (calculate_closest_point_of_approach G slat slon sp course tlat tlon).2.1 ∧
        (calculate_closest_point_of_approach G slat slon sp course tlat tlon).2.1 ≤ T ∧
        (∀ u, u ≤ T →
          (calculate_closest_point_of_approach G slat slon sp course tlat tlon).1 ≤
            sampledDist G slat slon sp course tlat tlon u) ∧
        (T = 60 ∨
          ((calculate_closest_point_of_approach G slat slon sp course tlat tlon).2.1 + 5 < T ∧
            sampledDist G slat slon sp course tlat tlon T >
              (calculate_closest_point_of_approach G slat slon sp course tlat tlon).1)) ∧
        ((calculate_closest_point_of_approach G slat slon sp course tlat tlon).2.2 = true ↔
          ((calculate_closest_point_of_approach G slat slon sp course tlat tlon).1 <
            sampledDist G slat slon sp course tlat tlon 0 ∧
            0 < (calculate_closest_point_of_approach G slat slon sp course tlat tlon).2.1))) ∧
    ((calculate_closest_point_of_approach gGeo 0 0 1 0 99 99).1 = 3 ∧
      (calculate_closest_point_of_approach gGeo 0 0 1 0 99 99).2.1 = 2 ∧
      cpaProfile gGeo 0 0 1 0 99 99 20 = 0 ∧ (0 : ℚ) < 3) := by
  constructor
  · intro G slat slon sp course tlat tlon hsp
    have hE : ∀ u, 1 ≤ u → sampledDist G slat slon sp course tlat tlon u =
        cpaProfile G slat slon sp course tlat tlon u := by
      intro u hu
      unfold sampledDist
      rw [if_neg (by omega)]
    have hE0 : sampledDist G slat slon sp course tlat tlon 0 =
        G.calculate_distance slat slon tlat tlon := by
      unfold sampledDist
      rw [if_pos rfl]
    obtain ⟨T, hT1, hT2, h3, h4, h5, h6⟩ :=
      cpaScan_inv (cpaProfile G slat slon sp course tlat tlon)
        (sampledDist G slat slon sp course tlat tlon) hE 60 1
        (G.calculate_distance slat slon tlat tlon) 0 rfl (le_refl 1) (by omega)
        hE0.symm (fun u hu => by
          have hu0 : u = 0 := by omega
          subst hu0
          rw [hE0])
    refine ⟨T, hT2, ?_, ?_, ?_, ?_, ?_⟩ <;>
        simp only [calculate_closest_point_of_approach, if_neg hsp]
    · exact h3
    · exact h4
    · exact h5
    · exact h6
    · rw [hE0]
      simp only [decide_eq_true_eq]
  · refine ⟨?_, ?_, ?_, by norm_num⟩ <;>
      norm_num [calculate_closest_point_of_approach, cpaScan, cpaProfile, gGeo, gfun]

/-- Witness for C3: the scan characterisation instantiated on the concrete
`gGeo` profile at speed 1 kn. -/
theorem C3_witness :
    ∃ T, T ≤ 60 ∧
      (calculate_closest_point_of_approach gGeo 0 0 1 0 99 99).1 =
        sampledDist gGeo 0 0 1 0 99 99
          (calculate_closest_point_of_approach gGeo 0 0 1 0 99 99).2.1 ∧
      (calculate_closest_point_of_approach gGeo 0 0 1 0 99 99).2.1 ≤ T ∧
      (∀ u, u ≤ T →
        (calculate_closest_point_of_approach gGeo 0 0 1 0 99 99).1 ≤
          sampledDist gGeo 0 0 1 0 99 99 u) ∧
      (T = 60 ∨
        ((calculate_closest_point_of_approach gGeo 0 0 1 0 99 99).2.1 + 5 < T ∧
          sampledDist gGeo 0 0 1 0 99 99 T >
            (calculate_closest_point_of_approach gGeo 0 0 1 0 99 99).1)) ∧
      ((calculate_closest_point_of_approach gGeo 0 0 1 0 99 99).2.2 = true ↔
        ((calculate_closest_point_of_approach gGeo 0 0 1 0 99 99).1 <
          sampledDist gGeo 0 0 1 0 99 99 0 ∧
          0 < (calculate_closest_point_of_approach gGeo 0 0 1 0 99 99).2.1)) :=
  C3_cpa_first_local_minimum.1 gGeo 0 0 1 0 99 99 (by norm_num)
